import Mathlib

/-!
Verification of the PlaceWell EIH site-evaluation engine
(`pages/Scoring_Model.py` and `pages/Build_Feasibility.py`) against its
natural-language specification.

The Python code is shallowly embedded here:
* the geocoding retry loop becomes a structurally recursive function over an
  abstract provider (`Nat → ProviderResponse`), recording calls, sleeps and the
  outcome;
* the feasibility / risk-classification rule tables (`analyze_feasibility`,
  `generate_risk_assessment`) become computable functions over `ℚ` coordinates
  and `ℤ` scores;
* the scoring engine (`SiteScorer.score_location`) becomes a function over `ℝ`
  that passes the pandas tables (lists of records, derived columns as
  `Option ℝ` fields) explicitly, returning the result together with the
  post-call state of the two shared tables.
-/

/-! ## GeoResolver: the geocoding retry loop

Both `Scoring_Model.py` (lines 180-198) and `Build_Feasibility.py`
(lines 296-314) contain the identical loop:

  geolocator = Nominatim(user_agent="eih_analyzer", timeout=10)
  max_retries = 3
  retry_delay = 2  # seconds
  for attempt in range(max_retries):
      try:
          location = geolocator.geocode(address)
          if location:
              break
      except GeocoderTimedOut:
          if attempt < max_retries - 1:
              time.sleep(retry_delay)
              continue
          else:
              raise Exception("Geocoding service timed out after multiple attempts. ...")
  if location: ...  -- success path
  else: st.error("Could not find the specified address. ...")  -- not-found path

The provider is abstracted as a function from the attempt number to a
response: a found coordinate, a definitive empty result (`None`, no
exception), or a raised `GeocoderTimedOut`.
-/

/-- A resolved coordinate (latitude, longitude). -/
abbrev Coord : Type := ℚ × ℚ

/-- One response of the external geocoding provider for one attempt. -/
inductive ProviderResponse where
  | found (c : Coord)
  | notFound
  | timeout
deriving DecidableEq, Repr

/-- Terminal outcome of the retry loop. `timedOut` is the
`raise Exception("Geocoding service timed out after multiple attempts...")`
path; `notFound` is the post-loop `else: st.error("Could not find ...")`
path. -/
inductive GeocodeOutcome where
  | success (c : Coord)
  | timedOut
  | notFound
deriving DecidableEq, Repr

/-- Observable trace of one run of the retry loop: how many times the
provider was called, which sleeps happened (in order, in seconds), and the
terminal outcome. -/
structure GeocodeTrace where
  calls : ℕ
  sleeps : List ℕ
  outcome : GeocodeOutcome
deriving DecidableEq, Repr

/-- The body of `for attempt in range(max_retries)`.  `remaining + 1` is the
number of loop iterations still to run (so `attempt = maxRetries -
(remaining + 1)` and the Python guard `attempt < max_retries - 1` is
`remaining > 0`).  A found location breaks the loop and takes the success
path; a `None` result falls through to the next iteration (there is no
`else`-retry distinction in the code); a timeout sleeps and continues unless
this was the last attempt, in which case it raises. If the loop finishes all
iterations without a break, `location` is `None` and the not-found message
path is taken. -/
def loopFrom (provider : ℕ → ProviderResponse) (retryDelay : ℕ) :
    ℕ → ℕ → ℕ → List ℕ → GeocodeTrace
  | 0, _, calls, sleeps => ⟨calls, sleeps, .notFound⟩
  | remaining + 1, attempt, calls, sleeps =>
    match provider attempt with
    | .found c => ⟨calls + 1, sleeps, .success c⟩
    | .notFound => loopFrom provider retryDelay remaining (attempt + 1) (calls + 1) sleeps
    | .timeout =>
      if 0 < remaining then
        loopFrom provider retryDelay remaining (attempt + 1) (calls + 1)
          (sleeps ++ [retryDelay])
      else ⟨calls + 1, sleeps, .timedOut⟩

/-- The whole retry block with the code's constants `max_retries = 3`,
`retry_delay = 2`. -/
def geocode (provider : ℕ → ProviderResponse) : GeocodeTrace :=
  loopFrom provider 2 3 0 0 []

/-! ## FeasibilityEngine (`Build_Feasibility.analyze_feasibility`)

Coordinates and sizes are embedded as exact rationals; Python's `round`
(round-half-to-even) is embedded exactly. -/

/-- Python's built-in `round(x)`: round half to even. -/
def pyRoundQ (q : ℚ) : ℤ :=
  let n := ⌊q⌋
  if q - n < 1 / 2 then n
  else if 1 / 2 < q - n then n + 1
  else if n % 2 = 0 then n else n + 1

/-- Python's `round(x, 1)`. -/
def round1Q (q : ℚ) : ℚ := (pyRoundQ (q * 10) : ℚ) / 10

/-- Result dict of `analyze_feasibility`: zoning and infrastructure scores are
integers (clamped rounds), the overall score is rounded to one decimal. -/
structure FeasibilityResult where
  zoning_score : ℤ
  infrastructure_score : ℤ
  overall_score : ℚ
deriving DecidableEq, Repr

/-- `Build_Feasibility.analyze_feasibility(lat, lon, facility_type, size_sqm)`
embedded line by line: the two geofence boxes for the zoning base, the
size step function for the infrastructure base, the facility-type
multipliers, clamping to [0, 100] with rounding, and the 0.6/0.4 overall
weighting. -/
def analyzeFeasibility (lat lon : ℚ) (facility_type : String) (size_sqm : ℚ) :
    FeasibilityResult :=
  let zoning_base : ℚ :=
    if 37.33 ≤ lat ∧ lat ≤ 37.34 ∧ -121.89 ≤ lon ∧ lon ≤ -121.88 then
      -- Downtown area
      (if facility_type = "Temporary Shelter" ∨ facility_type = "Emergency Shelter"
        then 90 else 75)
    else if 37.31 ≤ lat ∧ lat ≤ 37.32 ∧ -121.85 ≤ lon ∧ lon ≤ -121.84 then
      -- Residential area
      (if facility_type = "Supportive Housing" ∨ facility_type = "Transitional Housing"
        then 65 else 45)
    else 80
  let infra_base : ℚ :=
    if size_sqm > 2000 then 60
    else if size_sqm > 1000 then 75
    else 85
  -- Adjust scores based on facility type
  let zoning_adj : ℚ :=
    if facility_type = "Temporary Shelter" then zoning_base * 1.1 else zoning_base
  let infra_adj : ℚ :=
    if facility_type = "Supportive Housing" then infra_base * 0.9 else infra_base
  -- Ensure scores are within 0-100 range
  let zoning_score := min 100 (max 0 (pyRoundQ zoning_adj))
  let infrastructure_score := min 100 (max 0 (pyRoundQ infra_adj))
  let overall_score :=
    round1Q (0.6 * (zoning_score : ℚ) + 0.4 * (infrastructure_score : ℚ))
  ⟨zoning_score, infrastructure_score, overall_score⟩

/-- The step function of `size_sqm` that the spec describes for the base
infrastructure score (claim C9's wording): `>2000 → 60, >1000 → 75, else 85`. -/
def infraStep (size_sqm : ℚ) : ℚ :=
  if size_sqm > 2000 then 60
  else if size_sqm > 1000 then 75
  else 85

/-! ## RiskClassifier (`Build_Feasibility.generate_risk_assessment`) -/

/-- The `risks` dict of `generate_risk_assessment`: four fixed categories,
each an ordered list of statements. -/
structure RiskReport where
  zoning_challenges : List String
  construction_risks : List String
  political_sensitivities : List String
  environmental_flags : List String
deriving DecidableEq, Repr

/-- `Build_Feasibility.generate_risk_assessment(lat, lon, facility_type,
size_sqm, results)` embedded statement by statement.  The facility-type
specific zoning note is appended after all four category lists are built,
so it ends up last in `zoning_challenges`. -/
def generateRiskAssessment (lat lon : ℚ) (facility_type : String) (size_sqm : ℚ)
    (results : FeasibilityResult) : RiskReport :=
  let zoning_challenges : List String :=
    (if results.zoning_score < 70 then
      ["High risk of zoning conflicts - may require extensive variance process"]
    else if results.zoning_score < 85 then
      ["Moderate zoning challenges - conditional use permit likely required"]
    else
      ["Zoning appears favorable, but standard permits still required"])
    ++
    (if facility_type = "Temporary Shelter" then
      ["Temporary use permits may be required"]
    else if facility_type = "Supportive Housing" then
      ["Permanent housing zoning requirements apply"]
    else [])
  let construction_risks : List String :=
    if results.infrastructure_score < 60 then
      ["Significant infrastructure upgrades needed",
       "Potential soil stability issues",
       "Drainage system may require major modifications"]
    else if results.infrastructure_score < 80 then
      ["Moderate infrastructure improvements needed",
       "Some site grading may be required",
       "Utility connections may need upgrades"]
    else
      ["Infrastructure appears adequate for development"]
  let political_sensitivities : List String :=
    if 37.33 ≤ lat ∧ lat ≤ 37.34 ∧ -121.89 ≤ lon ∧ lon ≤ -121.88 then
      ["High visibility location - increased community engagement needed",
       "Multiple stakeholders in the area",
       "Historic district considerations"]
    else if 37.31 ≤ lat ∧ lat ≤ 37.32 ∧ -121.85 ≤ lon ∧ lon ≤ -121.84 then
      ["Active neighborhood association in area",
       "School proximity considerations",
       "Residential density concerns"]
    else
      ["Standard community engagement process required"]
  let environmental_flags : List String :=
    if size_sqm > 2000 then
      ["Large site - comprehensive environmental review required",
       "Stormwater management plan needed",
       "Potential habitat impact assessment required"]
    else if size_sqm > 1000 then
      ["Moderate environmental review required",
       "Basic stormwater management needed",
       "Site-specific environmental considerations"]
    else
      ["Standard environmental review process"]
  ⟨zoning_challenges, construction_risks, political_sensitivities,
    environmental_flags⟩

/-! ## Claims about the retry loop (C3, C4) -/

/-- C3, counterexample: with a provider that definitively returns an empty
result (no exception) on every attempt, the loop calls the provider 3 times,
not exactly once — the `if location: break` pattern falls through to the next
iteration on `None`, so an empty result is retried. -/
theorem c3_counterexample :
    (geocode fun _ => ProviderResponse.notFound) =
      ⟨3, [], GeocodeOutcome.notFound⟩ ∧
    (geocode fun _ => ProviderResponse.notFound).calls ≠ 1 := by
  constructor
  · rfl
  · decide

/-- C3 (amended): when the provider returns a definitive empty result on
every attempt, address resolution still fails with the not-found outcome
(distinct from timeout) and sleeps zero times, but the provider is called 3
times — the empty result does not stop the loop, so resolution is not
immediate. -/
theorem c3_not_found_is_retried (provider : ℕ → ProviderResponse)
    (h : ∀ n, n < 3 → provider n = ProviderResponse.notFound) :
    geocode provider = ⟨3, [], GeocodeOutcome.notFound⟩ := by
  simp [geocode, loopFrom, h 0 (by norm_num), h 1 (by norm_num), h 2 (by norm_num)]

/-- Witness for C3's amended theorem at the constant not-found provider. -/
theorem c3_witness :
    (∀ n, n < 3 → (fun _ => ProviderResponse.notFound) n = ProviderResponse.notFound) ∧
    geocode (fun _ => ProviderResponse.notFound) = ⟨3, [], GeocodeOutcome.notFound⟩ :=
  ⟨fun _ _ => rfl, c3_not_found_is_retried _ (fun _ _ => rfl)⟩

/-- C4 (confirmed): when the provider raises a timeout on every attempt, the
loop makes exactly 3 calls, sleeps the fixed delay of 2 seconds exactly
between consecutive attempts (twice, not exponential), and only then fails
with the timed-out outcome. -/
theorem c4_timeout_three_attempts (provider : ℕ → ProviderResponse)
    (h : ∀ n, n < 3 → provider n = ProviderResponse.timeout) :
    geocode provider = ⟨3, [2, 2], GeocodeOutcome.timedOut⟩ := by
  simp [geocode, loopFrom, h 0 (by norm_num), h 1 (by norm_num), h 2 (by norm_num)]

/-- Witness for C4 at the constant timeout provider. -/
theorem c4_witness :
    (∀ n, n < 3 → (fun _ => ProviderResponse.timeout) n = ProviderResponse.timeout) ∧
    geocode (fun _ => ProviderResponse.timeout) = ⟨3, [2, 2], GeocodeOutcome.timedOut⟩ :=
  ⟨fun _ _ => rfl, c4_timeout_three_attempts _ (fun _ _ => rfl)⟩

/-! ## Claims about the feasibility rule tables (C8, C9) -/

/-- C8 (confirmed): the `zoning_challenges` category contains the high-risk
variance statement exactly when `zoning_score < 70`, the moderate
conditional-use-permit statement exactly when `70 ≤ zoning_score < 85`, the
favorable standard-permits statement exactly when `zoning_score ≥ 85`, and a
facility-type note exactly for "Temporary Shelter" and (the permanent-housing
note) for "Supportive Housing". -/
theorem c8_zoning_challenges_membership (lat lon : ℚ) (facility_type : String)
    (size_sqm : ℚ) (results : FeasibilityResult) :
    ("High risk of zoning conflicts - may require extensive variance process" ∈
        (generateRiskAssessment lat lon facility_type size_sqm results).zoning_challenges
      ↔ results.zoning_score < 70) ∧
    ("Moderate zoning challenges - conditional use permit likely required" ∈
        (generateRiskAssessment lat lon facility_type size_sqm results).zoning_challenges
      ↔ 70 ≤ results.zoning_score ∧ results.zoning_score < 85) ∧
    ("Zoning appears favorable, but standard permits still required" ∈
        (generateRiskAssessment lat lon facility_type size_sqm results).zoning_challenges
      ↔ 85 ≤ results.zoning_score) ∧
    ("Temporary use permits may be required" ∈
        (generateRiskAssessment lat lon facility_type size_sqm results).zoning_challenges
      ↔ facility_type = "Temporary Shelter") ∧
    ("Permanent housing zoning requirements apply" ∈
        (generateRiskAssessment lat lon facility_type size_sqm results).zoning_challenges
      ↔ facility_type = "Supportive Housing") := by
  simp only [generateRiskAssessment]
  split_ifs <;> simp_all <;> omega

/-- C9 (confirmed): the base infrastructure score of `analyze_feasibility` is
the step function of `size_sqm` alone (`>2000 → 60`, `>1000 → 75`, else 85);
the published infrastructure score is that step value through the
facility-type multiplier and the clamp-round, independent of the location; in
particular `size_sqm = 2500` has base 60 regardless of `lat`/`lon`. -/
theorem c9_infrastructure_step (lat lon : ℚ) (facility_type : String) (size_sqm : ℚ) :
    (analyzeFeasibility lat lon facility_type size_sqm).infrastructure_score =
      min 100 (max 0 (pyRoundQ (infraStep size_sqm *
        (if facility_type = "Supportive Housing" then 0.9 else 1)))) ∧
    infraStep 2500 = 60 ∧
    (analyzeFeasibility lat lon facility_type 2500).infrastructure_score =
      (if facility_type = "Supportive Housing" then 54 else 60) := by
  refine ⟨?_, by norm_num [infraStep], ?_⟩
  · simp only [analyzeFeasibility, infraStep]
    split_ifs <;> norm_num
  · by_cases hft : facility_type = "Supportive Housing" <;>
      simp only [analyzeFeasibility, hft, if_true, if_false] <;>
      norm_num [pyRoundQ]

/-! ## SiteScorer (`Scoring_Model.py`)

The scorer works on floats via `math.sin`/`math.cos`/`math.atan2`; it is
embedded over `ℝ`.  `math.atan2 y x` is `Complex.arg ⟨x, y⟩`. -/

/-- `math.radians(d)`. -/
noncomputable def degToRad (d : ℝ) : ℝ := d * (Real.pi / 180)

/-- `math.atan2(y, x)`. -/
noncomputable def atan2R (y x : ℝ) : ℝ := Complex.arg ⟨x, y⟩

/-- `SiteScorer.haversine(lat1, lon1, lat2, lon2)` exactly as written in
`Scoring_Model.py` lines 104-109: note the final line is
`R * atan2(sqrt(a), sqrt(1-a))` — with no factor 2. -/
noncomputable def haversine (lat1 lon1 lat2 lon2 : ℝ) : ℝ :=
  let R : ℝ := 6371
  let dlat := degToRad (lat2 - lat1)
  let dlon := degToRad (lon2 - lon1)
  let a := Real.sin (dlat / 2) ^ 2 +
    Real.cos (degToRad lat1) * Real.cos (degToRad lat2) * Real.sin (dlon / 2) ^ 2
  R * atan2R (Real.sqrt a) (Real.sqrt (1 - a))

/-- The haversine great-circle distance as the spec's glossary defines it
(sphere of radius R = 6371 km): central angle `c = 2·arcsin(√a)`
(equivalently `2·atan2(√a, √(1-a))`), distance `R·c`.  This is the
reference formula the claim compares the code against. -/
noncomputable def greatCircleDist (lat1 lon1 lat2 lon2 : ℝ) : ℝ :=
  let dlat := degToRad (lat2 - lat1)
  let dlon := degToRad (lon2 - lon1)
  let a := Real.sin (dlat / 2) ^ 2 +
    Real.cos (degToRad lat1) * Real.cos (degToRad lat2) * Real.sin (dlon / 2) ^ 2
  2 * 6371 * Real.arcsin (Real.sqrt a)

theorem atan2R_one_zero : atan2R 1 0 = Real.pi / 2 := by
  have h : (⟨0, 1⟩ : ℂ) = Complex.I := by
    apply Complex.ext <;> simp
  rw [atan2R, h, Complex.arg_I]

theorem atan2R_zero_one : atan2R 0 1 = 0 := by
  have h : (⟨1, 0⟩ : ℂ) = 1 := by
    apply Complex.ext <;> simp
  rw [atan2R, h, Complex.arg_one]

/-- The code's distance from a point to itself is 0. -/
theorem haversine_self (lat lon : ℝ) : haversine lat lon lat lon = 0 := by
  simp [haversine, degToRad, atan2R_zero_one]

/-- C1 (code bug): for the antipodal pair of equatorial points 180° of
longitude apart, the code's `haversine` returns `6371·π/2` ≈ 10 008 km while
the haversine great-circle distance is `6371·π` ≈ 20 015 km: the code's
formula omits the factor 2 of the central angle, so every shelter distance
fed to the within-3-km search is half the true great-circle distance. -/
theorem c1_haversine_is_half_great_circle :
    haversine 0 0 0 180 = 6371 * (Real.pi / 2) ∧
    greatCircleDist 0 0 0 180 = 6371 * Real.pi ∧
    haversine 0 0 0 180 < greatCircleDist 0 0 0 180 := by
  have h0 : degToRad 0 = 0 := by simp [degToRad]
  have h180 : degToRad 180 = Real.pi := by
    rw [degToRad]; field_simp
  have ha : Real.sin (degToRad ((0 : ℝ) - 0) / 2) ^ 2 +
      Real.cos (degToRad 0) * Real.cos (degToRad 0) *
        Real.sin (degToRad ((180 : ℝ) - 0) / 2) ^ 2 = 1 := by
    norm_num [h0, h180, Real.sin_pi_div_two]
  have e1 : haversine 0 0 0 180 = 6371 * (Real.pi / 2) := by
    simp only [haversine]
    rw [show ((0 : ℝ) - 0) = 0 from by norm_num] at ha ⊢
    rw [show ((180 : ℝ) - 0) = 180 from by norm_num] at ha ⊢
    rw [ha]
    simp [Real.sqrt_one, atan2R_one_zero]
  have e2 : greatCircleDist 0 0 0 180 = 6371 * Real.pi := by
    simp only [greatCircleDist]
    rw [show ((0 : ℝ) - 0) = 0 from by norm_num] at ha ⊢
    rw [show ((180 : ℝ) - 0) = 180 from by norm_num] at ha ⊢
    rw [ha]
    rw [Real.sqrt_one, Real.arcsin_one]
    ring
  refine ⟨e1, e2, ?_⟩
  rw [e1, e2]
  have := Real.pi_pos
  linarith

/-- Python's built-in `round(x)` over the reals: round half to even. -/
noncomputable def pyRoundR (x : ℝ) : ℤ :=
  let n := ⌊x⌋
  if x - n < 1 / 2 then n
  else if 1 / 2 < x - n then n + 1
  else if n % 2 = 0 then n else n + 1

/-- Python's `round(x, 2)` over the reals. -/
noncomputable def round2R (x : ℝ) : ℝ := (pyRoundR (x * 100) : ℝ) / 100

/-- One row of the census tract reference table
(`data sets/mock_census_tracts_sanjose.csv`).  `dist` is the derived
per-call column `census_df['dist']`: `none` until a scoring call writes it
onto the table. -/
structure Tract where
  tract_id : String
  latitude : ℝ
  longitude : ℝ
  poverty_rate : ℝ
  unhoused_count : ℝ
  dist : Option ℝ

/-- One row of the shelter reference table
(`data sets/mock_shelters_sanjose.csv`).  `distance_km` is the derived
per-call column `shelters_df['distance_km']`: `none` until a scoring call
writes it onto the table. -/
structure Shelter where
  shelter_id : String
  latitude : ℝ
  longitude : ℝ
  capacity : ℝ
  current_occupancy : ℝ
  distance_km : Option ℝ

/-- The local `distance(row)` helper of `score_location`: planar Euclidean
distance on raw degrees. -/
noncomputable def euclidDeg (lat lon rowLat rowLon : ℝ) : ℝ :=
  Real.sqrt ((rowLat - lat) ^ 2 + (rowLon - lon) ^ 2)

/-- `series.idxmin()` followed by `.loc`: the first row attaining the minimal
value of `f` (pandas' `idxmin` returns the index of the first occurrence of
the minimum), `none` on an empty table. -/
noncomputable def idxminBy {α : Type} (f : α → ℝ) : List α → Option α
  | [] => none
  | a :: l => some (l.foldl (fun best r => if f r < f best then r else best) a)

/-- The result dict of `score_location`: the total plus every component score
(keys of `component_scores`) and the matched tract id. -/
structure ScoreResult where
  total_score : ℝ
  services_score : ℝ
  infrastructure_score : ℝ
  community_impact : ℝ
  poverty_score : ℝ
  unhoused_score : ℝ
  shelter_access_score : ℝ
  tract_id : String

/-- `SiteScorer(lat, lon).score_location()` embedded line by line
(`Scoring_Model.py` lines 111-151).  The module-level tables `census_df` and
`shelters_df` are passed in and their post-call states returned, because the
code assigns the derived columns directly onto them
(`census_df['dist'] = ...`, `shelters_df['distance_km'] = ...`).
On an empty census table, `census_df['dist'].idxmin()` raises an untyped
`ValueError` after the census assignment and before the shelter assignment;
the exception propagates to the page's blanket `except Exception` handler —
modeled as a `none` result with the partially mutated state.
In the code the shelter-access branch order is `if not
nearby_shelters.empty: ... else: 0.2`; the branches are flipped here
(`if isEmpty`), with the same meaning. -/
noncomputable def scoreLocation (lat lon : ℝ) (census : List Tract)
    (shelters : List Shelter) :
    Option ScoreResult × List Tract × List Shelter :=
  let census' := census.map fun r =>
    { r with dist := some (euclidDeg lat lon r.latitude r.longitude) }
  match idxminBy (fun r => r.dist.getD 0) census' with
  | none => (none, census', shelters)
  | some best_row =>
    let poverty_score := min (best_row.poverty_rate / 50) 1
    let unhoused_score := min (best_row.unhoused_count / 400) 1
    let env_justice_score : ℝ := 0.65
    let infrastructure_score : ℝ := (0.9 + 0.7 + 0.85) / 3
    let shelters' := shelters.map fun s =>
      { s with distance_km := some (haversine lat lon s.latitude s.longitude) }
    let nearby_shelters := shelters'.filter fun s => decide (s.distance_km.getD 0 ≤ 3)
    let shelter_access_score :=
      if nearby_shelters.isEmpty then (0.2 : ℝ)
      else
        min (1 - ((nearby_shelters.map fun s => s.current_occupancy / s.capacity).sum /
          (nearby_shelters.length : ℝ))) 1
    let services_score := (shelter_access_score + 0.7 + 0.6 + 0.8) / 4
    let community_impact := (poverty_score + unhoused_score + env_justice_score) / 3
    let total_score := round2R (0.4 * services_score + 0.3 * infrastructure_score +
      0.3 * community_impact)
    (some { total_score := total_score, services_score := services_score,
            infrastructure_score := infrastructure_score,
            community_impact := community_impact,
            poverty_score := poverty_score, unhoused_score := unhoused_score,
            shelter_access_score := shelter_access_score,
            tract_id := best_row.tract_id },
     census', shelters')

/-- How a `score_location` run surfaces on the page: either results are
rendered, or an exception escapes to the page's single blanket
`except Exception as e: st.error(f"Error during analysis: ...")` handler.
The code has exactly one failure channel for the scorer and it is this
untyped generic one. -/
inductive ScoreOutcome where
  | ok (r : ScoreResult)
  | genericFailure

/-- Run the scorer the way the page does: any raised exception (the only one
the scorer itself can raise is the empty-table `ValueError` from `idxmin`)
becomes the generic catch-all failure. -/
noncomputable def runScore (lat lon : ℝ) (census : List Tract)
    (shelters : List Shelter) : ScoreOutcome :=
  match (scoreLocation lat lon census shelters).1 with
  | some r => ScoreOutcome.ok r
  | none => ScoreOutcome.genericFailure

/-! ## Claims about table mutation and the empty-table failure (C5, C6) -/

/-- A concrete census tract used in concrete runs. -/
def t0 : Tract :=
  { tract_id := "T1", latitude := 0, longitude := 0, poverty_rate := 10,
    unhoused_count := 100, dist := none }

/-- A concrete shelter reporting occupancy above capacity, co-located with
the probed coordinate. -/
def sBad : Shelter :=
  { shelter_id := "S1", latitude := 0, longitude := 0, capacity := 1,
    current_occupancy := 3, distance_km := none }

/-- C5, counterexample: scoring coordinate (0, 0) against a census table with
the one tract `t0` changes the shared census table — after the call its row
carries the derived `dist` column, so the derived column was written back
onto the shared reference table, not into a private copy. -/
theorem c5_counterexample : (scoreLocation 0 0 [t0] []).2.1 ≠ [t0] := by
  intro h
  simp [scoreLocation, idxminBy, t0, Tract.mk.injEq] at h

/-- C5 (amended): `score_location` writes the derived columns directly back
onto the shared reference tables: after a call the census table is exactly
the input table with `dist` set on every row, and the shelter table is
exactly the input table with `distance_km` set on every row (unless the
census table was empty, in which case the run aborts before reaching the
shelter assignment).  No other field of either table changes. -/
theorem c5_derived_columns_leak_to_shared_tables (lat lon : ℝ)
    (census : List Tract) (shelters : List Shelter) :
    (scoreLocation lat lon census shelters).2.1 =
      census.map (fun r =>
        { r with dist := some (euclidDeg lat lon r.latitude r.longitude) }) ∧
    (scoreLocation lat lon census shelters).2.2 =
      (if census.isEmpty then shelters
       else shelters.map fun s =>
        { s with distance_km := some (haversine lat lon s.latitude s.longitude) }) := by
  cases census with
  | nil => simp [scoreLocation, idxminBy]
  | cons a l => simp [scoreLocation, idxminBy]

/-- C6, counterexample: with an empty tract table the scorer's failure is the
page's generic catch-all outcome (`idxmin` raises an untyped `ValueError`
that only the blanket `except Exception` handler sees) — it is a generic
error, there is no typed `EmptyReferenceSet` anywhere in the code. -/
theorem c6_counterexample : runScore 0 0 [] [] = ScoreOutcome.genericFailure := rfl

/-- C6 (amended): if the tract reference table is empty the scorer does fail
— no score is produced and nothing is silently defaulted — but the failure
is an untyped exception surfacing through the page's generic catch-all
handler, not a typed `EmptyReferenceSet` configuration error. -/
theorem c6_empty_tracts_fail_generically (lat lon : ℝ) (shelters : List Shelter) :
    runScore lat lon [] shelters = ScoreOutcome.genericFailure ∧
    (scoreLocation lat lon [] shelters).1 = none :=
  ⟨rfl, rfl⟩

/-! ## Claim C7: nearest tract is the first planar-Euclidean minimizer -/

/-- The fold inside `idxminBy` returns an element of the list that attains
the minimum of `f` and, among those, the earliest one: every element
strictly before it has a strictly larger `f`-value (the fold replaces the
best row only on strict decrease, exactly pandas' first-occurrence
`idxmin`). -/
theorem foldlMin_spec {α : Type} (f : α → ℝ) :
    ∀ (l : List α) (a : α), ∃ i,
      (a :: l)[i]? = some (l.foldl (fun best r => if f r < f best then r else best) a) ∧
      (∀ x ∈ a :: l,
        f (l.foldl (fun best r => if f r < f best then r else best) a) ≤ f x) ∧
      ∀ x ∈ (a :: l).take i,
        f (l.foldl (fun best r => if f r < f best then r else best) a) < f x := by
  intro l
  induction l with
  | nil =>
    intro a
    refine ⟨0, by simp, ?_, by simp⟩
    intro x hx
    rw [List.mem_singleton] at hx
    exact hx ▸ le_refl _
  | cons b t ih =>
    intro a
    simp only [List.foldl_cons]
    by_cases hba : f b < f a
    · rw [if_pos hba]
      obtain ⟨i, hget, hmin, hpre⟩ := ih b
      refine ⟨i + 1, ?_, ?_, ?_⟩
      · rw [List.getElem?_cons_succ]
        exact hget
      · intro x hx
        rcases List.mem_cons.mp hx with rfl | hx'
        · exact le_of_lt (lt_of_le_of_lt (hmin b (List.mem_cons_self b t)) hba)
        · exact hmin x hx'
      · rw [List.take_succ_cons]
        intro x hx
        rcases List.mem_cons.mp hx with rfl | hx'
        · exact lt_of_le_of_lt (hmin b (List.mem_cons_self b t)) hba
        · exact hpre x hx'
    · rw [if_neg hba]
      have hab : f a ≤ f b := le_of_not_lt hba
      obtain ⟨i, hget, hmin, hpre⟩ := ih a
      have hminA : f (t.foldl (fun best r => if f r < f best then r else best) a) ≤ f a :=
        hmin a (List.mem_cons_self a t)
      rcases i with _ | j
      · have hva : (t.foldl (fun best r => if f r < f best then r else best) a) = a := by
          simpa using hget.symm
        refine ⟨0, by simpa using hva.symm, ?_, by simp⟩
        intro x hx
        rcases List.mem_cons.mp hx with rfl | hx'
        · exact hminA
        · rcases List.mem_cons.mp hx' with rfl | hx''
          · exact le_trans hminA hab
          · exact hmin x (List.mem_cons_of_mem a hx'')
      · rw [List.getElem?_cons_succ] at hget
        have hfa : f (t.foldl (fun best r => if f r < f best then r else best) a) < f a := by
          apply hpre a
          rw [List.take_succ_cons]
          exact List.mem_cons_self _ _
        have hft : ∀ x ∈ t.take j,
            f (t.foldl (fun best r => if f r < f best then r else best) a) < f x := by
          intro x hx
          apply hpre x
          rw [List.take_succ_cons]
          exact List.mem_cons_of_mem _ hx
        refine ⟨j + 2, ?_, ?_, ?_⟩
        · rw [List.getElem?_cons_succ, List.getElem?_cons_succ]
          exact hget
        · intro x hx
          rcases List.mem_cons.mp hx with rfl | hx'
          · exact hminA
          · rcases List.mem_cons.mp hx' with rfl | hx''
            · exact le_trans hminA hab
            · exact hmin x (List.mem_cons_of_mem a hx'')
        · rw [List.take_succ_cons, List.take_succ_cons]
          intro x hx
          rcases List.mem_cons.mp hx with rfl | hx'
          · exact hfa
          · rcases List.mem_cons.mp hx' with rfl | hx''
            · exact lt_of_lt_of_le hfa hab
            · exact hft x hx''

/-- `idxminBy` on a non-empty table returns the first row attaining the
minimal `f`-value. -/
theorem idxminBy_first_min {α : Type} (f : α → ℝ) (a : α) (l : List α) :
    ∃ m i, idxminBy f (a :: l) = some m ∧ (a :: l)[i]? = some m ∧
      (∀ x ∈ a :: l, f m ≤ f x) ∧ ∀ x ∈ (a :: l).take i, f m < f x := by
  obtain ⟨i, hget, hmin, hpre⟩ := foldlMin_spec f l a
  exact ⟨_, i, rfl, hget, hmin, hpre⟩

/-- C7 (confirmed): for every coordinate and non-empty tract table, the tract
matched by `score_location` is one minimizing the planar Euclidean distance
on raw degrees, and among equal-distance tracts the first record in table
order is chosen (every earlier record is strictly farther). -/
theorem c7_nearest_tract_planar_first (lat lon : ℝ) (census : List Tract)
    (shelters : List Shelter) (hc : census ≠ []) :
    ∃ m i, census[i]? = some m ∧
      (∀ x ∈ census,
        euclidDeg lat lon m.latitude m.longitude ≤
          euclidDeg lat lon x.latitude x.longitude) ∧
      (∀ x ∈ census.take i,
        euclidDeg lat lon m.latitude m.longitude <
          euclidDeg lat lon x.latitude x.longitude) ∧
      ∃ r, (scoreLocation lat lon census shelters).1 = some r ∧
        r.tract_id = m.tract_id := by
  rcases census with _ | ⟨a, l⟩
  · exact absurd rfl hc
  · obtain ⟨m', i, hidx, hget, hmin, hpre⟩ :=
      idxminBy_first_min (fun r => r.dist.getD 0)
        ({ a with dist := some (euclidDeg lat lon a.latitude a.longitude) })
        (l.map fun r => { r with dist := some (euclidDeg lat lon r.latitude r.longitude) })
    have hget' : ((a :: l).map fun r =>
        { r with dist := some (euclidDeg lat lon r.latitude r.longitude) })[i]? =
        some m' := hget
    rw [List.getElem?_map] at hget'
    obtain ⟨m, hm, hgm⟩ := Option.map_eq_some'.mp hget'
    refine ⟨m, i, hm, ?_, ?_, ?_⟩
    · intro x hx
      have hx' := List.mem_map_of_mem
        (fun r => { r with dist := some (euclidDeg lat lon r.latitude r.longitude) }) hx
      have := hmin _ hx'
      rw [← hgm] at this
      simpa using this
    · intro x hx
      have hx' := List.mem_map_of_mem
        (fun r => { r with dist := some (euclidDeg lat lon r.latitude r.longitude) }) hx
      rw [List.map_take] at hx'
      have := hpre _ hx'
      rw [← hgm] at this
      simpa using this
    · simp only [scoreLocation, List.map_cons]
      rw [hidx]
      refine ⟨_, rfl, ?_⟩
      rw [← hgm]

/-- Witness for C7 at coordinate (0,0) with the singleton tract table. -/
theorem c7_witness :
    ∃ m i, (([t0] : List Tract))[i]? = some m ∧
      (∀ x ∈ ([t0] : List Tract),
        euclidDeg 0 0 m.latitude m.longitude ≤
          euclidDeg 0 0 x.latitude x.longitude) ∧
      (∀ x ∈ ([t0] : List Tract).take i,
        euclidDeg 0 0 m.latitude m.longitude <
          euclidDeg 0 0 x.latitude x.longitude) ∧
      ∃ r, (scoreLocation 0 0 [t0] []).1 = some r ∧
        r.tract_id = m.tract_id :=
  c7_nearest_tract_planar_first 0 0 [t0] [] (List.cons_ne_nil t0 [])

/-! ## Claim C2: the shelter-access score -/

/-- The shelters whose code-computed distance is within 3 km of the
coordinate — the spec-level description of
`shelters_df[shelters_df['distance_km'] <= 3]`. -/
noncomputable def sheltersWithin3 (lat lon : ℝ) (shelters : List Shelter) :
    List Shelter :=
  shelters.filter fun s => decide (haversine lat lon s.latitude s.longitude ≤ 3)

/-- Filtering on the freshly written `distance_km` column is the same as
filtering directly on the haversine distance. -/
theorem filter_map_distance (lat lon : ℝ) (shelters : List Shelter) :
    ((shelters.map fun s =>
        { s with distance_km := some (haversine lat lon s.latitude s.longitude) }).filter
      fun s => decide (s.distance_km.getD 0 ≤ 3)) =
    (sheltersWithin3 lat lon shelters).map
      fun s => { s with distance_km := some (haversine lat lon s.latitude s.longitude) } := by
  induction shelters with
  | nil => rfl
  | cons s t ih =>
    simp only [sheltersWithin3, List.map_cons, List.filter_cons] at *
    by_cases h : haversine lat lon s.latitude s.longitude ≤ 3
    · simp [h, ih]
    · simp [h, ih]

/-- C2 (amended): the shelter-access score is 0.2 exactly when zero shelters
lie within 3 km of the coordinate; otherwise it is
`min(1 - mean(occupancy/capacity over the matched shelters), 1.0)` with no
lower clamp — the code caps the score only at 1.0 above, so it can be
negative when a matched shelter reports occupancy greater than capacity. -/
theorem c2_shelter_access_formula (lat lon : ℝ) (census : List Tract)
    (shelters : List Shelter) (hc : census ≠ []) :
    ∃ r, (scoreLocation lat lon census shelters).1 = some r ∧
      (sheltersWithin3 lat lon shelters = [] → r.shelter_access_score = 0.2) ∧
      (sheltersWithin3 lat lon shelters ≠ [] →
        r.shelter_access_score =
          min (1 - (((sheltersWithin3 lat lon shelters).map
              fun s => s.current_occupancy / s.capacity).sum /
            ((sheltersWithin3 lat lon shelters).length : ℝ))) 1) := by
  rcases census with _ | ⟨a, l⟩
  · exact absurd rfl hc
  · simp only [scoreLocation, List.map_cons, idxminBy]
    refine ⟨_, rfl, ?_, ?_⟩
    · intro h0
      simp only [filter_map_distance, h0, List.map_nil, List.isEmpty_nil, if_true]
    · intro hne
      rw [filter_map_distance]
      rw [if_neg (by simpa using hne)]
      simp only [List.map_map, List.length_map]
      rfl

/-- C2, counterexample: a shelter co-located with the probed coordinate
(distance 0 ≤ 3 km) reporting occupancy 3 against capacity 1 yields
`shelter_access_score = min(1 - 3/1, 1.0) = -2 < 0`: the claimed lower clamp
at 0 does not exist in the code, so the score is negative. -/
theorem c2_counterexample :
    (scoreLocation 0 0 [t0] [sBad]).1.map ScoreResult.shelter_access_score =
      some (-2) ∧ ((-2 : ℝ) < 0) := by
  refine ⟨?_, by norm_num⟩
  simp only [scoreLocation, List.map_cons, List.map_nil, idxminBy, List.foldl_nil,
    Option.map_some']
  simp only [sBad, haversine_self, Option.getD_some]
  norm_num [min_def]

/-- Witness for C2's amended theorem at coordinate (0,0), singleton census,
no shelters. -/
theorem c2_witness :
    ∃ r, (scoreLocation 0 0 [t0] ([] : List Shelter)).1 = some r ∧
      (sheltersWithin3 0 0 [] = [] → r.shelter_access_score = 0.2) ∧
      (sheltersWithin3 0 0 [] ≠ [] →
        r.shelter_access_score =
          min (1 - (((sheltersWithin3 0 0 []).map
              fun s => s.current_occupancy / s.capacity).sum /
            ((sheltersWithin3 0 0 []).length : ℝ))) 1) :=
  c2_shelter_access_formula 0 0 [t0] [] (List.cons_ne_nil t0 [])

/-! ## Claim C10: the scores never increase in a shelter's occupancy -/

theorem pyRoundR_floor_le (x : ℝ) : ⌊x⌋ ≤ pyRoundR x := by
  simp only [pyRoundR]
  split_ifs <;> omega

theorem pyRoundR_le_floor_add_one (x : ℝ) : pyRoundR x ≤ ⌊x⌋ + 1 := by
  simp only [pyRoundR]
  split_ifs <;> omega

/-- Round-half-to-even is monotone. -/
theorem pyRoundR_mono {x y : ℝ} (h : x ≤ y) : pyRoundR x ≤ pyRoundR y := by
  rcases lt_or_eq_of_le (Int.floor_le_floor h) with hf | hf
  · calc pyRoundR x ≤ ⌊x⌋ + 1 := pyRoundR_le_floor_add_one x
      _ ≤ ⌊y⌋ := hf
      _ ≤ pyRoundR y := pyRoundR_floor_le y
  · simp only [pyRoundR, ← hf]
    have hx := Int.floor_le x
    have hy := Int.lt_floor_add_one y
    split_ifs <;> first | omega | linarith

theorem round2R_mono {x y : ℝ} (h : x ≤ y) : round2R x ≤ round2R y := by
  simp only [round2R]
  have h1 := pyRoundR_mono (by linarith : x * 100 ≤ y * 100)
  have h2 : ((pyRoundR (x * 100) : ℤ) : ℝ) ≤ ((pyRoundR (y * 100) : ℤ) : ℝ) := by
    exact_mod_cast h1
  linarith

/-- Two shelter rows related by "identical except the second may report a
higher occupancy" (with a positive capacity). -/
def ShelterRel (a b : Shelter) : Prop :=
  a.latitude = b.latitude ∧ a.longitude = b.longitude ∧ a.capacity = b.capacity ∧
  0 < a.capacity ∧ a.current_occupancy ≤ b.current_occupancy

/-- Writing the distance column preserves the row relation, and the written
columns agree because latitude/longitude agree. -/
theorem forall₂_map_distance (lat lon : ℝ) {s t : List Shelter}
    (h : List.Forall₂ ShelterRel s t) :
    List.Forall₂ (fun a b => ShelterRel a b ∧ a.distance_km = b.distance_km)
      (s.map fun x =>
        { x with distance_km := some (haversine lat lon x.latitude x.longitude) })
      (t.map fun x =>
        { x with distance_km := some (haversine lat lon x.latitude x.longitude) }) := by
  induction h with
  | nil => exact List.Forall₂.nil
  | cons hab htl ih =>
    refine List.Forall₂.cons ⟨hab, ?_⟩ ih
    show some (haversine lat lon _ _) = some (haversine lat lon _ _)
    rw [hab.1, hab.2.1]

/-- Filtering with a predicate that respects the relation preserves
`Forall₂`. -/
theorem forall₂_filter {α : Type} {R : α → α → Prop} {p : α → Bool}
    (hp : ∀ a b, R a b → p a = p b) :
    ∀ {s t : List α}, List.Forall₂ R s t → List.Forall₂ R (s.filter p) (t.filter p) := by
  intro s t h
  induction h with
  | nil => exact List.Forall₂.nil
  | cons hab htl ih =>
    rw [List.filter_cons, List.filter_cons, ← hp _ _ hab]
    split_ifs with hpa
    · exact List.Forall₂.cons hab ih
    · exact ih

/-- Occupancy-over-capacity sums are monotone along the relation. -/
theorem forall₂_sum_occ_le {s t : List Shelter}
    (h : List.Forall₂ (fun a b => ShelterRel a b ∧ a.distance_km = b.distance_km) s t) :
    (s.map fun x => x.current_occupancy / x.capacity).sum ≤
      (t.map fun x => x.current_occupancy / x.capacity).sum := by
  induction h with
  | nil => simp
  | cons hab htl ih =>
    simp only [List.map_cons, List.sum_cons]
    rcases hab with ⟨⟨_, _, hcap, hpos, hocc⟩, _⟩
    refine add_le_add ?_ ih
    rw [← hcap]
    exact (div_le_div_iff_of_pos_right hpos).mpr hocc

/-- The shelter-access block of `score_location`, verbatim, as a function of
the raw shelter table. -/
noncomputable def shelterAccessPipe (lat lon : ℝ) (shelters : List Shelter) : ℝ :=
  let shelters' := shelters.map fun s =>
    { s with distance_km := some (haversine lat lon s.latitude s.longitude) }
  let nearby_shelters := shelters'.filter fun s => decide (s.distance_km.getD 0 ≤ 3)
  if nearby_shelters.isEmpty then (0.2 : ℝ)
  else
    min (1 - ((nearby_shelters.map fun s => s.current_occupancy / s.capacity).sum /
      (nearby_shelters.length : ℝ))) 1

/-- Raising occupancies (the second table along `ShelterRel`) never raises
the shelter-access score. -/
theorem shelterAccessPipe_anti (lat lon : ℝ) {s t : List Shelter}
    (h : List.Forall₂ ShelterRel s t) :
    shelterAccessPipe lat lon t ≤ shelterAccessPipe lat lon s := by
  have hp : ∀ a b, (ShelterRel a b ∧ a.distance_km = b.distance_km) →
      (decide (a.distance_km.getD 0 ≤ 3) : Bool) = decide (b.distance_km.getD 0 ≤ 3) := by
    intro a b hab
    rw [hab.2]
  have hf := forall₂_filter hp (forall₂_map_distance lat lon h)
  have hlen := hf.length_eq
  simp only [shelterAccessPipe]
  by_cases hemp :
      ((s.map fun x =>
        { x with distance_km := some (haversine lat lon x.latitude x.longitude) }).filter
          fun x => decide (x.distance_km.getD 0 ≤ 3)).isEmpty
  · have hs : ((s.map fun x =>
        { x with distance_km := some (haversine lat lon x.latitude x.longitude) }).filter
          fun x => decide (x.distance_km.getD 0 ≤ 3)) = [] := by
      simpa using hemp
    have ht : ((t.map fun x =>
        { x with distance_km := some (haversine lat lon x.latitude x.longitude) }).filter
          fun x => decide (x.distance_km.getD 0 ≤ 3)) = [] := by
      rw [hs] at hlen
      exact List.length_eq_zero.mp hlen.symm
    rw [hs, ht]
  · have hs : ((s.map fun x =>
        { x with distance_km := some (haversine lat lon x.latitude x.longitude) }).filter
          fun x => decide (x.distance_km.getD 0 ≤ 3)) ≠ [] := by
      simpa using hemp
    have ht : ((t.map fun x =>
        { x with distance_km := some (haversine lat lon x.latitude x.longitude) }).filter
          fun x => decide (x.distance_km.getD 0 ≤ 3)) ≠ [] := by
      intro h0
      rw [h0] at hlen
      exact hs (List.length_eq_zero.mp hlen)
    rw [if_neg (by simpa using ht), if_neg (by simpa using hs)]
    have hsum := forall₂_sum_occ_le hf
    have hlpos : (0 : ℝ) <
        (((s.map fun x =>
          { x with distance_km := some (haversine lat lon x.latitude x.longitude) }).filter
            fun x => decide (x.distance_km.getD 0 ≤ 3)).length : ℝ) := by
      exact_mod_cast List.length_pos.mpr hs
    rw [← hlen]
    refine min_le_min ?_ le_rfl
    have hdiv := (div_le_div_iff_of_pos_right hlpos).mpr hsum
    linarith

/-- Raising one shelter's occupancy by a non-negative `δ` relates the old and
new tables row by row. -/
theorem forall₂_set_occupancy :
    ∀ (l : List Shelter) (i : ℕ) (s₀ : Shelter) (δ : ℝ),
      l[i]? = some s₀ → 0 ≤ δ → (∀ x ∈ l, 0 < x.capacity) →
      List.Forall₂ ShelterRel l
        (l.set i { s₀ with current_occupancy := s₀.current_occupancy + δ }) := by
  intro l
  induction l with
  | nil =>
    intro i s₀ δ hi _ _
    simp at hi
  | cons a tl ih =>
    intro i s₀ δ hi hδ hcap
    rcases i with _ | j
    · rw [List.getElem?_cons_zero] at hi
      injection hi with hi'
      subst hi'
      rw [List.set_cons_zero]
      refine List.Forall₂.cons
        ⟨rfl, rfl, rfl, hcap a (List.mem_cons_self _ _), le_add_of_nonneg_right hδ⟩ ?_
      exact List.forall₂_same.mpr fun x hx =>
        ⟨rfl, rfl, rfl, hcap x (List.mem_cons_of_mem a hx), le_refl _⟩
    · rw [List.getElem?_cons_succ] at hi
      rw [List.set_cons_succ]
      exact List.Forall₂.cons
        ⟨rfl, rfl, rfl, hcap a (List.mem_cons_self _ _), le_refl _⟩
        (ih j s₀ δ hi hδ fun x hx => hcap x (List.mem_cons_of_mem a hx))

/-- The total score is monotone in the shelter-access component (everything
else held fixed): the `round(·, 2)` at the end preserves order. -/
theorem total_from_access (acc₁ acc₂ comm : ℝ) (h : acc₂ ≤ acc₁) :
    round2R (0.4 * ((acc₂ + 0.7 + 0.6 + 0.8) / 4) +
        0.3 * ((0.9 + 0.7 + 0.85) / 3) + 0.3 * comm) ≤
      round2R (0.4 * ((acc₁ + 0.7 + 0.6 + 0.8) / 4) +
        0.3 * ((0.9 + 0.7 + 0.85) / 3) + 0.3 * comm) := by
  apply round2R_mono
  linarith

/-- C10 (confirmed): with positive capacities, increasing one shelter's
current occupancy (all other inputs fixed) never increases the Shelter
Access component score or the returned total score. -/
theorem c10_occupancy_monotone (lat lon : ℝ) (census : List Tract)
    (shelters : List Shelter) (i : ℕ) (s₀ : Shelter) (δ : ℝ)
    (hc : census ≠ []) (hi : shelters[i]? = some s₀) (hδ : 0 ≤ δ)
    (hcap : ∀ x ∈ shelters, 0 < x.capacity) :
    ∃ r₁ r₂,
      (scoreLocation lat lon census shelters).1 = some r₁ ∧
      (scoreLocation lat lon census
        (shelters.set i
          { s₀ with current_occupancy := s₀.current_occupancy + δ })).1 = some r₂ ∧
      r₂.shelter_access_score ≤ r₁.shelter_access_score ∧
      r₂.total_score ≤ r₁.total_score := by
  rcases census with _ | ⟨a, l⟩
  · exact absurd rfl hc
  · have hrel := forall₂_set_occupancy shelters i s₀ δ hi hδ hcap
    have hacc := shelterAccessPipe_anti lat lon hrel
    refine ⟨_, _, rfl, rfl, ?_, ?_⟩
    · exact hacc
    · exact total_from_access _ _ _ hacc

/-- A concrete shelter with positive capacity, co-located with the probed
coordinate. -/
def sGood : Shelter :=
  { shelter_id := "S2", latitude := 0, longitude := 0, capacity := 100,
    current_occupancy := 10, distance_km := none }

/-- Witness for C10: raising `sGood`'s occupancy from 10 to 15 at coordinate
(0, 0). -/
theorem c10_witness :
    ∃ r₁ r₂,
      (scoreLocation 0 0 [t0] [sGood]).1 = some r₁ ∧
      (scoreLocation 0 0 [t0]
        ([sGood].set 0
          { sGood with current_occupancy := sGood.current_occupancy + 5 })).1 = some r₂ ∧
      r₂.shelter_access_score ≤ r₁.shelter_access_score ∧
      r₂.total_score ≤ r₁.total_score :=
  c10_occupancy_monotone 0 0 [t0] [sGood] 0 sGood 5 (List.cons_ne_nil t0 [])
    rfl (by norm_num)
    (by
      intro x hx
      rw [List.mem_singleton] at hx
      subst hx
      norm_num [sGood])
